import Mathlib

/-!
# ServiceEase — verification of the cart/order/permission core

Shallow embedding of the ordering and access-control subsystems of the
ServiceEase marketplace backend (Django/DRF application):

* `orders/models.py` — `Cart`, `CartItem`, `Order`, `OrderItem`
* `orders/serializers.py` — `OrderSerializer.create` (checkout),
  `OrderSerializer.update`
* `orders/views.py` — `CartViewSet.create`, `CartItemViewSet.create`,
  `OrderViewSet.perform_update`
* `common/permissions.py` — `is_user_admin`, `IsOwnerOrAdmin`,
  `IsCartOwnerOrAdmin`
* `common/views.py` — `payment_success`

Database rows are modelled as structures, the database as lists of rows
plus autoincrement counters.  `DecimalField(decimal_places=2)` money
amounts are modelled in fixed-point hundredths ("cents") as `Int`: the
only arithmetic the core performs on them — multiplication by an integer
quantity and addition — is exact in that representation, so 10.00 is
written 1000 and 5.50 is written 550.  Django `PositiveIntegerField`
columns are modelled as `Int` fields guarded by the database CHECK
constraint `0 ≤ quantity`, which the embedding enforces at each write
(a violated constraint surfaces as an `IntegrityError` exception, not a
validation response, exactly as in Django's ORM).
-/

namespace ServiceEase

/-- Order status values, from `Order.STATUS_CHOICES` in `orders/models.py`. -/
inductive OrderStatus where
  | PENDING
  | ACCEPTED
  | IN_PROGRESS
  | COMPLETED
  | CANCELLED
deriving DecidableEq, Repr

/-- A catalog item (`services/models.py`): only the fields the ordering core
reads (`id`, `price`).  `price` is a `DecimalField`, modelled in cents. -/
structure Service where
  id : Nat
  price : Int
deriving DecidableEq, Repr

/-- `orders/models.py` `Cart`: `user` is a `OneToOneField` to the auth user. -/
structure Cart where
  id : Nat
  user : Nat
deriving DecidableEq, Repr

/-- `orders/models.py` `CartItem`: a line of a cart.  `quantity` is a
`PositiveIntegerField`; it is modelled as `Int` because the view code does
Python integer arithmetic on it before saving, and the database CHECK
constraint `0 ≤ quantity` is enforced at each write. -/
structure CartItem where
  id : Nat
  cart : Nat
  service : Nat
  quantity : Int
deriving DecidableEq, Repr

/-- `orders/models.py` `Order`. -/
structure Order where
  id : Nat
  client : Nat
  total_price : Int
  status : OrderStatus
deriving DecidableEq, Repr

/-- `orders/models.py` `OrderItem`: a snapshot line of an order.  Note the
model stores only `(order, service, quantity)` — it has **no** price column. -/
structure OrderItem where
  id : Nat
  order : Nat
  service : Nat
  quantity : Int
deriving DecidableEq, Repr

/-- An authenticated (or anonymous) principal: the Django auth user as the
permission layer sees it — an id, the `is_authenticated` flag and the list of
group names. -/
structure User where
  id : Nat
  isAuthenticated : Bool
  groups : List String
deriving DecidableEq, Repr

/-- The relational store: one list per table plus autoincrement counters. -/
structure DB where
  services : List Service
  carts : List Cart
  cartItems : List CartItem
  orders : List Order
  orderItems : List OrderItem
  nextCartId : Nat
  nextCartItemId : Nat
  nextOrderId : Nat
  nextOrderItemId : Nat
deriving DecidableEq, Repr

/-! ## Role resolver and ownership guards (`common/permissions.py`) -/

/-- `user.groups.filter(name='Admin').exists()` — membership of the `Admin`
group.  The `_is_admin_cached` attribute in the source is request-scoped
memoisation of exactly this lookup, so the cached and uncached paths compute
the same value; the embedding is the memoised function. -/
def adminGroupMember (u : User) : Bool :=
  u.groups.contains "Admin"

/-- `is_user_admin(request)` from `common/permissions.py`: `False` for missing
or unauthenticated users, else the (cached) Admin-group membership. -/
def is_user_admin (u : User) : Bool :=
  u.isAuthenticated && adminGroupMember u

/-- `IsOwnerOrAdmin.has_object_permission`: admin passes; otherwise the
object's `user` attribute or `client` attribute must equal the requester.
`objUser`/`objClient` are `getattr(obj, 'user'/'client', None)`. -/
def isOwnerOrAdminPerm (u : User) (objUser objClient : Option Nat) : Bool :=
  if adminGroupMember u then true
  else if objUser == some u.id then true
  else if objClient == some u.id then true
  else false

/-- `IsCartOwnerOrAdmin.has_object_permission`: admin passes; otherwise the
object must have a `cart` attribute whose `user` equals the requester.
`cartOwner` is `obj.cart.user` when `hasattr(obj, 'cart')`, else `none`. -/
def isCartOwnerOrAdminPerm (u : User) (cartOwner : Option Nat) : Bool :=
  if adminGroupMember u then true
  else cartOwner == some u.id

/-- The three resource kinds of the ownership-guard matrix. -/
inductive Resource where
  | order (o : Order)
  | cart (c : Cart)
  | cartLine (ci : CartItem)
deriving DecidableEq, Repr

/-- Owner of the parent cart of a cart line (`obj.cart.user`), looked up
through the cart's foreign key. -/
def cartOwnerOf (db : DB) (ci : CartItem) : Option Nat :=
  (db.carts.find? (fun c => c.id == ci.cart)).map (fun c => c.user)

/-- Object-level access check, dispatched as the viewsets do: `Order` and
`Cart` objects go through `IsOwnerOrAdmin` (an `Order` has a `client`
attribute and no `user` attribute; a `Cart` has a `user` attribute and no
`client` attribute), cart lines go through `IsCartOwnerOrAdmin`. -/
def canAccess (db : DB) (u : User) : Resource → Bool
  | .order o => isOwnerOrAdminPerm u none (some o.client)
  | .cart c => isOwnerOrAdminPerm u (some c.user) none
  | .cartLine ci => isCartOwnerOrAdminPerm u (cartOwnerOf db ci)

/-- The owner of a resource: the order's client, the cart's user, or the
owner of a cart line's parent cart. -/
def ownerOf (db : DB) : Resource → Option Nat
  | .order o => some o.client
  | .cart c => some c.user
  | .cartLine ci => cartOwnerOf db ci

/-! ## Cart aggregate operations (`orders/views.py`) -/

/-- `CartViewSet.create`, non-admin branch (`orders/views.py` lines 52-60):
`Cart.objects.get_or_create(user=user)`, returning the cart id and HTTP
status 201 when a cart was created, 200 when the existing one is returned. -/
def cartGetOrCreate (db : DB) (u : User) : DB × Nat × Nat :=
  match db.carts.find? (fun c => c.user == u.id) with
  | some c => (db, c.id, 200)
  | none =>
    let c : Cart := { id := db.nextCartId, user := u.id }
    ({ db with carts := db.carts ++ [c], nextCartId := db.nextCartId + 1 }, c.id, 201)

/-- Outcome of `CartItemViewSet.create`: a 201 with the (created or merged)
item and the new store, an error response (404 cart missing, 403 not owner,
400 missing service field) leaving the store as given, or an uncaught
`IntegrityError` from a violated database constraint — the failed single
statement is rolled back, so the store in that constructor is unchanged. -/
inductive AddLineResult where
  | created (db : DB) (item : CartItem)
  | clientError (code : Nat) (db : DB)
  | integrityError (db : DB)
deriving DecidableEq, Repr

/-- `CartItemViewSet.create` (`orders/views.py` lines 137-160).  Steps, in
source order: look up the cart by pk (404 if absent); reject non-admins that
do not own the cart (403); reject a missing/falsy `service` field (400);
`CartItem.objects.get_or_create(cart=cart, service_id=service_id,
defaults={'quantity': quantity})`; on an existing row, `quantity += quantity`
then `save()`.  There is **no validation of `quantity`** anywhere in the
view: only the database constraints can stop a write — the CHECK
`0 ≤ quantity` of the `PositiveIntegerField` and the foreign-key constraint
on `service_id`, both surfacing as `IntegrityError`. -/
def cartItemCreate (db : DB) (u : User) (cartPk : Nat) (serviceId : Option Nat)
    (quantity : Int) : AddLineResult :=
  match db.carts.find? (fun c => c.id == cartPk) with
  | none => .clientError 404 db
  | some cart =>
    if !is_user_admin u && cart.user != u.id then .clientError 403 db
    else match serviceId with
    | none => .clientError 400 db
    | some sid =>
      if sid == 0 then .clientError 400 db  -- `if not service_id` is also true for 0
      else match db.cartItems.find? (fun i => i.cart == cart.id && i.service == sid) with
      | some item =>
        let q := item.quantity + quantity
        if q < 0 then .integrityError db
        else .created
          { db with cartItems :=
              db.cartItems.map (fun x => if x.id == item.id then { x with quantity := q } else x) }
          { item with quantity := q }
      | none =>
        if (db.services.find? (fun s => s.id == sid)).isNone then .integrityError db
        else if quantity < 0 then .integrityError db
        else
          let item : CartItem :=
            { id := db.nextCartItemId, cart := cart.id, service := sid, quantity := quantity }
          .created
            { db with cartItems := db.cartItems ++ [item],
                      nextCartItemId := db.nextCartItemId + 1 }
            item

/-! ## Checkout engine (`orders/serializers.py`, `OrderSerializer.create`) -/

/-- Errors raised by `OrderSerializer.create` before any write happens. -/
inductive CheckoutError where
  | clientRequired   -- admin checkout without a `client` in the payload
  | noCart           -- `Cart.DoesNotExist` for the target client
  | emptyCart        -- cart has no items
deriving DecidableEq, Repr

/-- Target-client resolution at the top of `OrderSerializer.create`: admins
must supply `client` in the payload; everyone else checks out their own
cart. -/
def resolveClient (u : User) (payloadClient : Option Nat) : Except CheckoutError Nat :=
  if is_user_admin u then
    match payloadClient with
    | none => .error .clientRequired
    | some c => .ok c
  else .ok u.id

/-- Price of a service looked up through a line's foreign key
(`item.service.price`); total along the checkout loop. -/
def servicePrice (db : DB) (sid : Nat) : Int :=
  ((db.services.find? (fun s => s.id == sid)).map (fun s => s.price)).getD 0

/-- `OrderItem` rows created by the checkout loop, with sequential ids. -/
def assignOrderItems (startId oid : Nat) : List CartItem → List OrderItem
  | [] => []
  | it :: rest =>
    { id := startId, order := oid, service := it.service, quantity := it.quantity }
      :: assignOrderItems (startId + 1) oid rest

/-- `total_price` accumulated by the checkout loop:
`total_price += item.service.price * item.quantity`. -/
def checkoutTotal (db : DB) (items : List CartItem) : Int :=
  items.foldl (fun acc it => acc + servicePrice db it.service * it.quantity) 0

/-- `OrderSerializer.create` (`orders/serializers.py` lines 95-131), end
state of the successful run: resolve the client; fetch the client's cart
(`ValidationError` if none); reject an empty cart; create the Order
(status defaults to `PENDING`, total to 0); create one OrderItem per cart
line accumulating the total; save the total on the order; delete the cart
(cascading to its items). -/
def checkout (db : DB) (u : User) (payloadClient : Option Nat) :
    Except CheckoutError (DB × Order) :=
  match resolveClient u payloadClient with
  | .error e => .error e
  | .ok client =>
    match db.carts.find? (fun c => c.user == client) with
    | none => .error .noCart
    | some cart =>
      match db.cartItems.filter (fun i => i.cart == cart.id) with
      | [] => .error .emptyCart
      | _ :: _ =>
        let items := db.cartItems.filter (fun i => i.cart == cart.id)
        let oid := db.nextOrderId
        let order : Order :=
          { id := oid, client := client, total_price := checkoutTotal db items,
            status := .PENDING }
        .ok
          ({ db with
              orders := db.orders ++ [order],
              orderItems := db.orderItems ++ assignOrderItems db.nextOrderItemId oid items,
              carts := db.carts.filter (fun c => c.id != cart.id),
              cartItems := db.cartItems.filter (fun i => i.cart != cart.id),
              nextOrderId := db.nextOrderId + 1,
              nextOrderItemId := db.nextOrderItemId + items.length },
           order)

/-- The same `OrderSerializer.create`, but exposing the intermediate
database states: the method is **not** wrapped in `transaction.atomic` (nor
is any other transaction management visible in the app), so each ORM call —
`Order.objects.create`, each `OrderItem.objects.create`, `order.save()`,
`cart.delete()` — commits on its own.  `checkoutAfterWrites db u pc k` is
the observable store when the process dies after the first `k` of those
writes committed (so `k = 0` is the state when validation passed but the
order insert failed, and large `k` is the fully finished run). -/
def checkoutAfterWrites (db : DB) (u : User) (payloadClient : Option Nat)
    (k : Nat) : DB :=
  match resolveClient u payloadClient with
  | .error _ => db
  | .ok client =>
    match db.carts.find? (fun c => c.user == client) with
    | none => db
    | some cart =>
      match db.cartItems.filter (fun i => i.cart == cart.id) with
      | [] => db
      | _ :: _ =>
        let items := db.cartItems.filter (fun i => i.cart == cart.id)
        let oid := db.nextOrderId
        let writes : List (DB → DB) :=
          (fun s =>
            { s with
                orders := s.orders ++
                  [{ id := oid, client := client, total_price := 0, status := .PENDING }],
                nextOrderId := s.nextOrderId + 1 })
          :: items.map (fun it s =>
              { s with
                  orderItems := s.orderItems ++
                    [{ id := s.nextOrderItemId, order := oid, service := it.service,
                       quantity := it.quantity }],
                  nextOrderItemId := s.nextOrderItemId + 1 })
          ++ [fun s =>
                { s with orders := s.orders.map (fun o =>
                    if o.id == oid then { o with total_price := checkoutTotal db items } else o) },
              fun s =>
                { s with
                    carts := s.carts.filter (fun c => c.id != cart.id),
                    cartItems := s.cartItems.filter (fun i => i.cart != cart.id) }]
        (writes.take k).foldl (fun s w => w s) db

/-! ## Order update (`OrderSerializer.update`, `OrderViewSet.perform_update`) -/

/-- The writable part of an order payload.  Of the serializer's fields,
`total_price`, `created_at`, `updated_at` and `order_items` are declared
read-only for everyone, leaving `client` and `status` as the only fields an
update can carry. -/
structure OrderPayload where
  client : Option Nat
  status : Option OrderStatus
deriving DecidableEq, Repr

/-- Field-level validation from `OrderSerializer.__init__`: for non-admin
requesters both `client` and `status` are marked `read_only`, so they are
dropped from `validated_data`; admins keep both. -/
def orderSerializerValidate (isAdmin : Bool) (p : OrderPayload) : OrderPayload :=
  if isAdmin then p else { client := none, status := none }

/-- `OrderSerializer.update` (`orders/serializers.py` lines 133-137): pops
`status` from `validated_data` for non-admins, then applies the remaining
fields to the instance. -/
def orderSerializerUpdate (isAdmin : Bool) (inst : Order) (vd : OrderPayload) : Order :=
  let vd := if isAdmin then vd else { vd with status := none }
  { inst with
      client := vd.client.getD inst.client,
      status := vd.status.getD inst.status }

/-- `OrderViewSet.perform_update` (`orders/views.py` lines 278-284) composed
with serializer validation and `OrderSerializer.update`: admins save the
validated data as-is; non-admins additionally pop `status` before saving.
The function is total: a payload carrying `status` still succeeds for a
non-admin — the field is dropped, never rejected. -/
def orderPerformUpdate (isAdmin : Bool) (inst : Order) (p : OrderPayload) : Order :=
  let vd := orderSerializerValidate isAdmin p
  let vd := if isAdmin then vd else { vd with status := none }
  orderSerializerUpdate isAdmin inst vd

/-! ## Payment callback (`common/views.py`, `payment_success`) -/

/-- Outcome of the callback view: a redirect response with the updated
store, or an uncaught Python/ORM exception (named) — the framework turns
that into a 500, and the store is left as it was. -/
inductive PaymentResult where
  | redirect (db : DB)
  | exn (name : String) (db : DB)
deriving DecidableEq, Repr

/-- Python `s.split('_')` for a single-character separator, on strings
modelled as character lists: `splitSep '_' "a_b".data = ["a".data, "b".data]`,
and the result is never empty. -/
def splitSep (sep : Char) : List Char → List (List Char)
  | [] => [[]]
  | c :: rest =>
    let r := splitSep sep rest
    if c = sep then [] :: r
    else
      match r with
      | [] => [[c]]
      | h :: t => (c :: h) :: t

/-- Python `int(s)` restricted to the digit strings this code path can
meet, composed with Django's pk lookup conversion: a non-empty all-digit
string parses to its value, anything else raises (`ValueError`). -/
def parseDigits (s : List Char) : Option Nat :=
  if s.isEmpty || !s.all (fun c => c.isDigit) then none
  else some (s.foldl (fun acc c => acc * 10 + (c.toNat - 48)) 0)

/-- `payment_success` (`common/views.py` lines 64-70), translated literally:

`order_id = request.data.get("tran_id").split('_')[1]` — a missing
`tran_id` is `None`, so `.split` raises `AttributeError`; a string without
`'_'` gives a 1-element list, so `[1]` raises `IndexError`.
`Order.objects.get(id=order_id)` raises `ValueError` on a non-numeric id
and `Order.DoesNotExist` when no order matches.  Otherwise the order's
status is set to `ACCEPTED` **unconditionally** — the current status is
never consulted — and the user is redirected.  No exception is caught
anywhere in the view. -/
def payment_success (db : DB) (tranId : Option (List Char)) : PaymentResult :=
  match tranId with
  | none => .exn "AttributeError" db
  | some s =>
    match (splitSep '_' s).get? 1 with
    | none => .exn "IndexError" db
    | some idStr =>
      match parseDigits idStr with
      | none => .exn "ValueError" db
      | some oid =>
        match db.orders.find? (fun o => o.id == oid) with
        | none => .exn "DoesNotExist" db
        | some _ =>
          .redirect
            { db with orders := db.orders.map (fun o =>
                if o.id == oid then { o with status := .ACCEPTED } else o) }

/-! ## Derived observers -/

/-- Cart total as summed at checkout time over the cart's lines. -/
def cartTotal (db : DB) (cartId : Nat) : Int :=
  (((db.cartItems.filter (fun i => i.cart == cartId)).map
    (fun i => servicePrice db i.service * i.quantity)).sum)

/-- The stored `total_price` of an order, straight from its row. -/
def storedTotal (db : DB) (oid : Nat) : Option Int :=
  (db.orders.find? (fun o => o.id == oid)).map (fun o => o.total_price)

/-- The price a client sees on an order line (`OrderItemSerializer.price`,
`source="service.price"`): it is read live from the `Service` row, because
`OrderItem` stores no price of its own. -/
def orderLineImpliedPrice (db : DB) (oi : OrderItem) : Int :=
  servicePrice db oi.service

/-- Recomputing an order's total from its lines, at current service
prices — what summing the serializer's `price × quantity` per line gives. -/
def recomputeOrderTotal (db : DB) (oid : Nat) : Int :=
  (((db.orderItems.filter (fun i => i.order == oid)).map
    (fun i => servicePrice db i.service * i.quantity)).sum)

/-- An administrator edits a service's price (`Service` update): the
`services` row changes; no other table is touched. -/
def setServicePrice (db : DB) (sid : Nat) (p : Int) : DB :=
  { db with services := db.services.map (fun s =>
      if s.id == sid then { s with price := p } else s) }

/-! ## Theorems -/

/-- C4: Ownership guard matrix — for each resource kind in {Order, Cart,
CartLine}, the object-level check grants access to administrators and to the
resource's owner (for a cart line, the owner of its parent cart), and denies
every other authenticated principal. -/
theorem ownership_guard_matrix (db : DB) (u : User) (r : Resource)
    (_hauth : u.isAuthenticated = true) :
    (adminGroupMember u = true → canAccess db u r = true) ∧
    (ownerOf db r = some u.id → canAccess db u r = true) ∧
    (adminGroupMember u = false → ownerOf db r ≠ some u.id →
      canAccess db u r = false) := by
  refine ⟨?_, ?_, ?_⟩ <;> intro h <;> cases r <;>
    simp_all [canAccess, ownerOf, isOwnerOrAdminPerm, isCartOwnerOrAdminPerm]

/-- Witness for C4 at concrete inputs: an admin, the owner, and a stranger
acting on a concrete cart. -/
theorem ownership_guard_matrix_witness :
    canAccess
        { services := [], carts := [], cartItems := [], orders := [], orderItems := [],
          nextCartId := 1, nextCartItemId := 1, nextOrderId := 1, nextOrderItemId := 1 }
        { id := 1, isAuthenticated := true, groups := ["Admin"] }
        (.cart { id := 1, user := 7 }) = true ∧
    canAccess
        { services := [], carts := [], cartItems := [], orders := [], orderItems := [],
          nextCartId := 1, nextCartItemId := 1, nextOrderId := 1, nextOrderItemId := 1 }
        { id := 7, isAuthenticated := true, groups := ["Client"] }
        (.cart { id := 1, user := 7 }) = true ∧
    canAccess
        { services := [], carts := [], cartItems := [], orders := [], orderItems := [],
          nextCartId := 1, nextCartItemId := 1, nextOrderId := 1, nextOrderItemId := 1 }
        { id := 9, isAuthenticated := true, groups := ["Client"] }
        (.cart { id := 1, user := 7 }) = false := by
  refine ⟨?_, ?_, ?_⟩
  · exact (ownership_guard_matrix _ _ _ rfl).1 (by decide)
  · exact (ownership_guard_matrix _ _ _ rfl).2.1 (by decide)
  · exact (ownership_guard_matrix _ _ _ rfl).2.2 (by decide) (by decide)

/-- C5: Status-field stripping — a non-admin order update carrying a
`status` value succeeds but leaves the status unchanged (the field is
silently dropped), while the same payload applied by an admin sets the
status. -/
theorem status_field_stripping (inst : Order) (p : OrderPayload) (s : OrderStatus) :
    (orderPerformUpdate false inst p).status = inst.status ∧
    (orderPerformUpdate true inst { p with status := some s }).status = s := by
  constructor <;>
    simp [orderPerformUpdate, orderSerializerValidate, orderSerializerUpdate]

/-- C8: Idempotent cart creation — two sequential `getOrCreate` calls for
the same principal return the same cart id, the second call does not change
the store at all, and the number of carts owned by the principal after the
first call is `max (previous count) 1`: a cart is created only when none
existed, so at most one cart per principal ever exists. -/
theorem cart_creation_idempotent (db : DB) (u : User) :
    (cartGetOrCreate (cartGetOrCreate db u).1 u).2.1 = (cartGetOrCreate db u).2.1 ∧
    (cartGetOrCreate (cartGetOrCreate db u).1 u).1 = (cartGetOrCreate db u).1 ∧
    (cartGetOrCreate db u).1.carts.countP (fun c => c.user == u.id) =
      max (db.carts.countP (fun c => c.user == u.id)) 1 := by
  cases hfind : db.carts.find? (fun c => c.user == u.id) with
  | some c =>
    have hc := List.find?_some hfind
    have hmem : c ∈ db.carts := List.mem_of_find?_eq_some hfind
    have hpos : 0 < db.carts.countP (fun c => c.user == u.id) :=
      List.countP_pos_iff.mpr ⟨c, hmem, hc⟩
    simp [cartGetOrCreate, hfind, Nat.max_eq_left hpos]
  | none =>
    have hzero : db.carts.countP (fun c => c.user == u.id) = 0 :=
      List.countP_eq_zero.mpr (List.find?_eq_none.mp hfind)
    have hnew : (fun c => c.user == u.id)
        ({ id := db.nextCartId, user := u.id } : Cart) = true := by simp
    simp [cartGetOrCreate, hfind, List.find?_append, hzero, List.countP_append,
      List.countP_cons, hnew]

/-- The checkout loop's running total is the sum of per-line amounts. -/
theorem checkoutTotal_eq_sum (db : DB) (l : List CartItem) :
    checkoutTotal db l
      = (l.map (fun it => servicePrice db it.service * it.quantity)).sum := by
  suffices h : ∀ (init : Int) (l : List CartItem),
      l.foldl (fun acc it => acc + servicePrice db it.service * it.quantity) init
        = init + (l.map (fun it => servicePrice db it.service * it.quantity)).sum by
    simpa [checkoutTotal] using h 0 l
  intro init l
  induction l generalizing init with
  | nil => simp
  | cons a t ih => simp [ih, add_assoc]

/-- Every row built by the checkout loop belongs to the new order. -/
theorem assignOrderItems_filter (startId oid : Nat) (l : List CartItem) :
    (assignOrderItems startId oid l).filter (fun i => i.order == oid)
      = assignOrderItems startId oid l := by
  induction l generalizing startId with
  | nil => simp [assignOrderItems]
  | cons a t ih => simp [assignOrderItems, List.filter_cons, ih]

/-- The checkout loop copies each cart line's `(service, quantity)` pair
verbatim into its order line. -/
theorem assignOrderItems_pairs (startId oid : Nat) (l : List CartItem) :
    (assignOrderItems startId oid l).map (fun i => (i.service, i.quantity))
      = l.map (fun i => (i.service, i.quantity)) := by
  induction l generalizing startId with
  | nil => rfl
  | cons a t ih => simp [assignOrderItems, ih]

/-- C2: Successful checkout — for a client with a non-empty cart, checkout
returns an order owned by that client with status `PENDING` and
`total_price` equal to the cart total (sum of `service.price × quantity`
over the lines); the new order's lines carry exactly the cart's
`(service, quantity)` pairs, one per cart line and in order; and the source
cart's row is gone from the store. -/
theorem checkout_success (db : DB) (u : User) (pc : Option Nat) (client : Nat)
    (cart : Cart)
    (hres : resolveClient u pc = .ok client)
    (hcart : db.carts.find? (fun c => c.user == client) = some cart)
    (hne : db.cartItems.filter (fun i => i.cart == cart.id) ≠ [])
    (hfresh : ∀ oi ∈ db.orderItems, oi.order ≠ db.nextOrderId) :
    ∃ db' order, checkout db u pc = .ok (db', order) ∧
      order.client = client ∧
      order.status = .PENDING ∧
      order.total_price = cartTotal db cart.id ∧
      ((db'.orderItems.filter (fun i => i.order == order.id)).map
          (fun i => (i.service, i.quantity))
        = (db.cartItems.filter (fun i => i.cart == cart.id)).map
          (fun i => (i.service, i.quantity))) ∧
      db'.carts.find? (fun c => c.id == cart.id) = none := by
  cases hitems : db.cartItems.filter (fun i => i.cart == cart.id) with
  | nil => exact absurd hitems hne
  | cons a t =>
    have hold : db.orderItems.filter (fun i => i.order == db.nextOrderId) = [] := by
      rw [List.filter_eq_nil_iff]
      intro oi hmem
      simpa using hfresh oi hmem
    refine ⟨{ db with
                orders := db.orders ++ [{ id := db.nextOrderId, client := client,
                                          total_price := checkoutTotal db (a :: t),
                                          status := .PENDING }],
                orderItems := db.orderItems ++
                  assignOrderItems db.nextOrderItemId db.nextOrderId (a :: t),
                carts := db.carts.filter (fun c => c.id != cart.id),
                cartItems := db.cartItems.filter (fun i => i.cart != cart.id),
                nextOrderId := db.nextOrderId + 1,
                nextOrderItemId := db.nextOrderItemId + (a :: t).length },
      { id := db.nextOrderId, client := client,
        total_price := checkoutTotal db (a :: t), status := .PENDING },
      ?_, rfl, rfl, ?_, ?_, ?_⟩
    · simp only [checkout, hres, hcart, hitems]
    · show checkoutTotal db (a :: t) = cartTotal db cart.id
      rw [checkoutTotal_eq_sum, cartTotal, hitems]
    · show ((db.orderItems ++
          assignOrderItems db.nextOrderItemId db.nextOrderId (a :: t)).filter
            (fun i => i.order == db.nextOrderId)).map (fun i => (i.service, i.quantity))
        = (a :: t).map (fun i => (i.service, i.quantity))
      rw [List.filter_append, hold, List.nil_append, assignOrderItems_filter,
        assignOrderItems_pairs]
    · show (db.carts.filter (fun c => c.id != cart.id)).find?
          (fun c => c.id == cart.id) = none
      rw [List.find?_eq_none]
      intro c hmem
      have := (List.mem_filter.mp hmem).2
      simpa using this

/-- Witness for C2: the spec's own example — two services priced 10.00 and
5.50, a cart with quantities 2 and 1, checkout by the owner yields a
`PENDING` order with total 25.50 and the cart gone. -/
theorem checkout_success_witness :
    (∃ db' order,
      checkout
        { services := [{ id := 1, price := 1000 }, { id := 2, price := 550 }],
          carts := [{ id := 1, user := 7 }],
          cartItems := [{ id := 1, cart := 1, service := 1, quantity := 2 },
                        { id := 2, cart := 1, service := 2, quantity := 1 }],
          orders := [], orderItems := [],
          nextCartId := 2, nextCartItemId := 3, nextOrderId := 1, nextOrderItemId := 1 }
        { id := 7, isAuthenticated := true, groups := ["Client"] } none
        = .ok (db', order) ∧
      order.client = 7 ∧
      order.status = .PENDING ∧
      order.total_price =
        cartTotal
          { services := [{ id := 1, price := 1000 }, { id := 2, price := 550 }],
            carts := [{ id := 1, user := 7 }],
            cartItems := [{ id := 1, cart := 1, service := 1, quantity := 2 },
                          { id := 2, cart := 1, service := 2, quantity := 1 }],
            orders := [], orderItems := [],
            nextCartId := 2, nextCartItemId := 3, nextOrderId := 1, nextOrderItemId := 1 }
          1 ∧
      ((db'.orderItems.filter (fun i => i.order == order.id)).map
          (fun i => (i.service, i.quantity))
        = [(1, 2), (2, 1)]) ∧
      db'.carts.find? (fun c => c.id == 1) = none) ∧
    cartTotal
      { services := [{ id := 1, price := 1000 }, { id := 2, price := 550 }],
        carts := [{ id := 1, user := 7 }],
        cartItems := [{ id := 1, cart := 1, service := 1, quantity := 2 },
                      { id := 2, cart := 1, service := 2, quantity := 1 }],
        orders := [], orderItems := [],
        nextCartId := 2, nextCartItemId := 3, nextOrderId := 1, nextOrderItemId := 1 }
      1 = 2550 := by
  constructor
  · obtain ⟨db', order, h1, h2, h3, h4, h5, h6⟩ :=
      checkout_success
        { services := [{ id := 1, price := 1000 }, { id := 2, price := 550 }],
          carts := [{ id := 1, user := 7 }],
          cartItems := [{ id := 1, cart := 1, service := 1, quantity := 2 },
                        { id := 2, cart := 1, service := 2, quantity := 1 }],
          orders := [], orderItems := [],
          nextCartId := 2, nextCartItemId := 3, nextOrderId := 1, nextOrderItemId := 1 }
        { id := 7, isAuthenticated := true, groups := ["Client"] } none 7
        { id := 1, user := 7 }
        rfl rfl (by decide) (by intro oi h; simp at h)
    exact ⟨db', order, h1, h2, h3, h4, by rw [h5]; rfl, h6⟩
  · decide

/-- Counting under a map that does not change the counted predicate. -/
theorem countP_map_congr {α : Type} (p : α → Bool) (f : α → α) (l : List α)
    (h : ∀ x, p (f x) = p x) : (l.map f).countP p = l.countP p := by
  induction l with
  | nil => rfl
  | cons a t ih => simp [List.countP_cons, h, ih]

/-- Per-`(cart, service)` multiplicity is never increased beyond one by
`CartItemViewSet.create`: the merge path rewrites an existing row in place,
and the create path only fires when no row for the pair exists. -/
theorem cartItemCreate_no_duplicate (dbA dbB : DB) (uA : User) (pkA sidA : Nat)
    (q : Int) (itB : CartItem) (c s : Nat)
    (h : cartItemCreate dbA uA pkA (some sidA) q = .created dbB itB)
    (hle : dbA.cartItems.countP (fun i => i.cart == c && i.service == s) ≤ 1) :
    dbB.cartItems.countP (fun i => i.cart == c && i.service == s) ≤ 1 := by
  cases hcartA : dbA.carts.find? (fun cc => cc.id == pkA) with
  | none => simp [cartItemCreate, hcartA] at h
  | some cartA =>
    by_cases hperm : (!is_user_admin uA && cartA.user != uA.id) = true
    · simp [cartItemCreate, hcartA, hperm] at h
    · by_cases hsid0 : (sidA == 0) = true
      · simp [cartItemCreate, hcartA, hperm, hsid0] at h
      · cases hfound : dbA.cartItems.find? (fun i => i.cart == cartA.id && i.service == sidA) with
        | some itemA =>
          by_cases hneg : itemA.quantity + q < 0
          · simp [cartItemCreate, hcartA, hperm, hsid0, hfound, hneg] at h
          · simp only [cartItemCreate, hcartA, hperm, hsid0, hfound, hneg,
              Bool.false_eq_true, if_false, if_neg, AddLineResult.created.injEq] at h
            obtain ⟨hdb, hit⟩ := h
            subst hdb
            rw [countP_map_congr]
            · exact hle
            · intro x
              by_cases hx : (x.id == itemA.id) = true <;> simp [hx]
        | none =>
          by_cases hsvcN : (dbA.services.find? (fun sv => sv.id == sidA)).isNone = true
          · simp [cartItemCreate, hcartA, hperm, hsid0, hfound, hsvcN] at h
          · by_cases hneg : q < 0
            · simp [cartItemCreate, hcartA, hperm, hsid0, hfound, hsvcN, hneg] at h
            · simp only [cartItemCreate, hcartA, hperm, hsid0, hfound, hsvcN, hneg,
                Bool.false_eq_true, if_false, if_neg, AddLineResult.created.injEq] at h
              obtain ⟨hdb, hit⟩ := h
              subst hdb
              simp only [List.countP_append, List.countP_cons, List.countP_nil]
              by_cases hpair : ((cartA.id == c) && (sidA == s)) = true
              · have hcs := (Bool.and_eq_true _ _).mp hpair
                have hc : cartA.id = c := eq_of_beq hcs.1
                have hs : sidA = s := eq_of_beq hcs.2
                have hzero : dbA.cartItems.countP
                    (fun i => i.cart == c && i.service == s) = 0 := by
                  rw [List.countP_eq_zero]
                  intro x hx
                  have := List.find?_eq_none.mp hfound x hx
                  simpa [hc, hs] using this
                simp [hzero, hpair]
              · simp only [hpair]
                simpa using hle

/-- C7: Line merge — adding a service with quantity 2 and then again with
quantity 3 to a cart that did not contain it leaves exactly one line for
that `(cart, service)` pair, with quantity 5; and, in general, a successful
add never pushes the number of lines for any `(cart, service)` pair above
one, so lines stay unique per pair. -/
theorem line_merge (db : DB) (u : User) (cartPk sid : Nat) (cart : Cart)
    (hcart : db.carts.find? (fun c => c.id == cartPk) = some cart)
    (hown : cart.user = u.id)
    (hsvc : (db.services.find? (fun s => s.id == sid)).isSome = true)
    (hsid : sid ≠ 0)
    (hnew : db.cartItems.find? (fun i => i.cart == cart.id && i.service == sid) = none) :
    (∃ db1 it1 db2 it2,
      cartItemCreate db u cartPk (some sid) 2 = .created db1 it1 ∧
      cartItemCreate db1 u cartPk (some sid) 3 = .created db2 it2 ∧
      db2.cartItems.filter (fun i => i.cart == cart.id && i.service == sid)
        = [{ id := db.nextCartItemId, cart := cart.id, service := sid, quantity := 5 }]) ∧
    (∀ (dbA dbB : DB) (uA : User) (pkA sidA : Nat) (q : Int) (itB : CartItem) (c s : Nat),
      cartItemCreate dbA uA pkA (some sidA) q = .created dbB itB →
      dbA.cartItems.countP (fun i => i.cart == c && i.service == s) ≤ 1 →
      dbB.cartItems.countP (fun i => i.cart == c && i.service == s) ≤ 1) := by
  refine ⟨?_, fun dbA dbB uA pkA sidA q itB c s h hle =>
    cartItemCreate_no_duplicate dbA dbB uA pkA sidA q itB c s h hle⟩
  have hperm : (!is_user_admin u && cart.user != u.id) = false := by
    simp [hown]
  have hsid0 : (sid == 0) = false := by
    simpa using hsid
  obtain ⟨sv, hsv⟩ := Option.isSome_iff_exists.mp hsvc
  have hsvcN : (db.services.find? (fun s => s.id == sid)).isNone = false := by
    rw [hsv]; rfl
  have h2neg : ¬((2 : Int) < 0) := by norm_num
  set newIt : CartItem :=
    { id := db.nextCartItemId, cart := cart.id, service := sid, quantity := 2 } with hnewIt
  set db1 : DB :=
    { db with
        cartItems := db.cartItems ++ [newIt],
        nextCartItemId := db.nextCartItemId + 1 } with hdb1
  have h1 : cartItemCreate db u cartPk (some sid) 2 = AddLineResult.created db1 newIt := by
    rw [hdb1, hnewIt]
    simp [cartItemCreate, hcart, hperm, hsid0, hnew, hsvcN]
  have hfind1 : db1.cartItems.find? (fun i => i.cart == cart.id && i.service == sid)
      = some newIt := by
    rw [hdb1]
    show (db.cartItems ++ [newIt]).find? (fun i => i.cart == cart.id && i.service == sid)
      = some newIt
    rw [List.find?_append, hnew]
    simp [hnewIt]
  set fiveIt : CartItem :=
    { id := db.nextCartItemId, cart := cart.id, service := sid, quantity := 5 } with hfiveIt
  set db2 : DB :=
    { db1 with
        cartItems := db1.cartItems.map
          (fun x => if x.id == newIt.id then { x with quantity := 5 } else x) } with hdb2
  have h5neg : ¬(newIt.quantity + (3 : Int) < 0) := by
    rw [hnewIt]; norm_num
  have h5 : newIt.quantity + (3 : Int) = 5 := by
    rw [hnewIt]; norm_num
  have h2 : cartItemCreate db1 u cartPk (some sid) 3 = AddLineResult.created db2 fiveIt := by
    have hcart1 : db1.carts.find? (fun c => c.id == cartPk) = some cart := by
      rw [hdb1]; exact hcart
    simp only [cartItemCreate, hcart1, hperm, hsid0, hfind1, h5neg,
      Bool.false_eq_true, if_false, if_neg, h5]
    rw [if_neg (by norm_num : ¬(5 : Int) < 0), hdb2, hdb1]
  refine ⟨db1, newIt, db2, fiveIt, h1, h2, ?_⟩
  have holdnil : (db.cartItems.map
      (fun x => if x.id == newIt.id then { x with quantity := 5 } else x)).filter
        (fun i => i.cart == cart.id && i.service == sid) = [] := by
    rw [List.filter_eq_nil_iff]
    intro y hy
    obtain ⟨x, hx, rfl⟩ := List.mem_map.mp hy
    have hpx := List.find?_eq_none.mp hnew x hx
    by_cases hid : (x.id == newIt.id) = true <;> simp [hid] <;> simpa using hpx
  have hshow : db2.cartItems = db.cartItems.map
        (fun x => if x.id == newIt.id then { x with quantity := 5 } else x)
      ++ [if newIt.id == newIt.id then { newIt with quantity := 5 } else newIt] := by
    rw [hdb2, hdb1]
    show (db.cartItems ++ [newIt]).map
        (fun x => if x.id == newIt.id then { x with quantity := 5 } else x)
      = _
    rw [List.map_append]
    rfl
  rw [hshow, List.filter_append, holdnil, List.nil_append]
  simp [hnewIt, hfiveIt]

/-- Witness for C7 at a concrete store: service 1 added with quantity 2
then 3 to cart 1 ends as a single line of quantity 5. -/
theorem line_merge_witness :
    ∃ db1 it1 db2 it2,
      cartItemCreate
        { services := [{ id := 1, price := 1000 }],
          carts := [{ id := 1, user := 7 }],
          cartItems := [], orders := [], orderItems := [],
          nextCartId := 2, nextCartItemId := 1, nextOrderId := 1, nextOrderItemId := 1 }
        { id := 7, isAuthenticated := true, groups := ["Client"] } 1 (some 1) 2
        = .created db1 it1 ∧
      cartItemCreate db1
        { id := 7, isAuthenticated := true, groups := ["Client"] } 1 (some 1) 3
        = .created db2 it2 ∧
      db2.cartItems.filter (fun i => i.cart == 1 && i.service == 1)
        = [{ id := 1, cart := 1, service := 1, quantity := 5 }] :=
  (line_merge
    { services := [{ id := 1, price := 1000 }],
      carts := [{ id := 1, user := 7 }],
      cartItems := [], orders := [], orderItems := [],
      nextCartId := 2, nextCartItemId := 1, nextOrderId := 1, nextOrderItemId := 1 }
    { id := 7, isAuthenticated := true, groups := ["Client"] } 1 1
    { id := 1, user := 7 } rfl rfl rfl (by decide) rfl).1

/-- C6 counterexample: on a cart owned by the caller, with service 1 in the
catalog and not yet in the cart, `addLine` with quantity **0** does not fail
with any validation error — it answers 201 and stores a line with
quantity 0, changing the cart's lines. -/
theorem addline_zero_quantity_accepted :
    cartItemCreate
      { services := [{ id := 1, price := 1000 }],
        carts := [{ id := 1, user := 7 }],
        cartItems := [], orders := [], orderItems := [],
        nextCartId := 2, nextCartItemId := 1, nextOrderId := 1, nextOrderItemId := 1 }
      { id := 7, isAuthenticated := true, groups := ["Client"] } 1 (some 1) 0
      = .created
        { services := [{ id := 1, price := 1000 }],
          carts := [{ id := 1, user := 7 }],
          cartItems := [{ id := 1, cart := 1, service := 1, quantity := 0 }],
          orders := [], orderItems := [],
          nextCartId := 2, nextCartItemId := 2, nextOrderId := 1, nextOrderItemId := 1 }
        { id := 1, cart := 1, service := 1, quantity := 0 } := by
  decide

/-- C6 (amended): `CartItemViewSet.create` performs no quantity validation
of its own.  Quantity 0 on a fresh pair is accepted (HTTP 201) and stores a
line with quantity 0; a negative quantity on a fresh pair is stopped only by
the database CHECK constraint, surfacing as an uncaught `IntegrityError` —
not as an `InvalidInput`/`ValidationError` response — with the store
unchanged. -/
theorem addline_no_quantity_validation (db : DB) (u : User) (cartPk sid : Nat)
    (cart : Cart)
    (hcart : db.carts.find? (fun c => c.id == cartPk) = some cart)
    (hown : cart.user = u.id)
    (hsvc : (db.services.find? (fun s => s.id == sid)).isSome = true)
    (hsid : sid ≠ 0)
    (hnew : db.cartItems.find? (fun i => i.cart == cart.id && i.service == sid) = none) :
    (cartItemCreate db u cartPk (some sid) 0
      = .created
          { db with
              cartItems := db.cartItems ++
                [{ id := db.nextCartItemId, cart := cart.id, service := sid, quantity := 0 }],
              nextCartItemId := db.nextCartItemId + 1 }
          { id := db.nextCartItemId, cart := cart.id, service := sid, quantity := 0 }) ∧
    (∀ q : Int, q < 0 → cartItemCreate db u cartPk (some sid) q = .integrityError db) := by
  have hperm : (!is_user_admin u && cart.user != u.id) = false := by
    simp [hown]
  have hsid0 : (sid == 0) = false := by
    simpa using hsid
  obtain ⟨sv, hsv⟩ := Option.isSome_iff_exists.mp hsvc
  have hsvcN : (db.services.find? (fun s => s.id == sid)).isNone = false := by
    rw [hsv]; rfl
  constructor
  · simp [cartItemCreate, hcart, hperm, hsid0, hnew, hsvcN]
  · intro q hq
    simp [cartItemCreate, hcart, hperm, hsid0, hnew, hsvcN, hq]

/-- Witness for the amended C6: quantity 0 stores a 0-quantity line with a
201, quantity -3 dies with an `IntegrityError` leaving the store as it
was. -/
theorem addline_no_quantity_validation_witness :
    (cartItemCreate
      { services := [{ id := 2, price := 550 }],
        carts := [{ id := 3, user := 8 }],
        cartItems := [], orders := [], orderItems := [],
        nextCartId := 4, nextCartItemId := 1, nextOrderId := 1, nextOrderItemId := 1 }
      { id := 8, isAuthenticated := true, groups := ["Client"] } 3 (some 2) 0
      = .created
          { services := [{ id := 2, price := 550 }],
            carts := [{ id := 3, user := 8 }],
            cartItems := [{ id := 1, cart := 3, service := 2, quantity := 0 }],
            orders := [], orderItems := [],
            nextCartId := 4, nextCartItemId := 2, nextOrderId := 1, nextOrderItemId := 1 }
          { id := 1, cart := 3, service := 2, quantity := 0 }) ∧
    (cartItemCreate
      { services := [{ id := 2, price := 550 }],
        carts := [{ id := 3, user := 8 }],
        cartItems := [], orders := [], orderItems := [],
        nextCartId := 4, nextCartItemId := 1, nextOrderId := 1, nextOrderItemId := 1 }
      { id := 8, isAuthenticated := true, groups := ["Client"] } 3 (some 2) (-3)
      = .integrityError
          { services := [{ id := 2, price := 550 }],
            carts := [{ id := 3, user := 8 }],
            cartItems := [], orders := [], orderItems := [],
            nextCartId := 4, nextCartItemId := 1, nextOrderId := 1, nextOrderItemId := 1 }) := by
  have h := addline_no_quantity_validation
    { services := [{ id := 2, price := 550 }],
      carts := [{ id := 3, user := 8 }],
      cartItems := [], orders := [], orderItems := [],
      nextCartId := 4, nextCartItemId := 1, nextOrderId := 1, nextOrderItemId := 1 }
    { id := 8, isAuthenticated := true, groups := ["Client"] } 3 2
    { id := 3, user := 8 } rfl rfl rfl (by decide) rfl
  exact ⟨h.1, h.2 (-3) (by decide)⟩

/-- C3 counterexample: an order produced by checkout (one line, service 1,
price 10.00, quantity 2, captured total 20.00).  Raising the service price to
20.00 leaves the stored total at 20.00 — but recomputing the total from the
order's lines, whose price the serializer reads live from the `Service` row,
now gives 40.00, no longer the value captured at checkout. -/
theorem price_snapshot_counterexample :
    checkout
      { services := [{ id := 1, price := 1000 }],
        carts := [{ id := 1, user := 7 }],
        cartItems := [{ id := 1, cart := 1, service := 1, quantity := 2 }],
        orders := [], orderItems := [],
        nextCartId := 2, nextCartItemId := 2, nextOrderId := 1, nextOrderItemId := 1 }
      { id := 7, isAuthenticated := true, groups := ["Client"] } none
      = .ok
        ({ services := [{ id := 1, price := 1000 }],
           carts := [], cartItems := [],
           orders := [{ id := 1, client := 7, total_price := 2000, status := .PENDING }],
           orderItems := [{ id := 1, order := 1, service := 1, quantity := 2 }],
           nextCartId := 2, nextCartItemId := 2, nextOrderId := 2, nextOrderItemId := 2 },
         { id := 1, client := 7, total_price := 2000, status := .PENDING }) ∧
    storedTotal
      { services := [{ id := 1, price := 1000 }],
        carts := [], cartItems := [],
        orders := [{ id := 1, client := 7, total_price := 2000, status := .PENDING }],
        orderItems := [{ id := 1, order := 1, service := 1, quantity := 2 }],
        nextCartId := 2, nextCartItemId := 2, nextOrderId := 2, nextOrderItemId := 2 }
      1 = some 2000 ∧
    recomputeOrderTotal
      { services := [{ id := 1, price := 1000 }],
        carts := [], cartItems := [],
        orders := [{ id := 1, client := 7, total_price := 2000, status := .PENDING }],
        orderItems := [{ id := 1, order := 1, service := 1, quantity := 2 }],
        nextCartId := 2, nextCartItemId := 2, nextOrderId := 2, nextOrderItemId := 2 }
      1 = 2000 ∧
    storedTotal
      (setServicePrice
        { services := [{ id := 1, price := 1000 }],
          carts := [], cartItems := [],
          orders := [{ id := 1, client := 7, total_price := 2000, status := .PENDING }],
          orderItems := [{ id := 1, order := 1, service := 1, quantity := 2 }],
          nextCartId := 2, nextCartItemId := 2, nextOrderId := 2, nextOrderItemId := 2 }
        1 2000)
      1 = some 2000 ∧
    recomputeOrderTotal
      (setServicePrice
        { services := [{ id := 1, price := 1000 }],
          carts := [], cartItems := [],
          orders := [{ id := 1, client := 7, total_price := 2000, status := .PENDING }],
          orderItems := [{ id := 1, order := 1, service := 1, quantity := 2 }],
          nextCartId := 2, nextCartItemId := 2, nextOrderId := 2, nextOrderItemId := 2 }
        1 2000)
      1 = 4000 := by
  refine ⟨rfl, rfl, by decide, rfl, by decide⟩

/-- C3 (amended): a `Service` price update touches neither the `orders` nor
the `order_items` table, so every order's **stored** `total_price` is a true
checkout-time snapshot; but an `OrderItem` stores no price of its own — its
implied price is read live from the `Service` row — so only lines of
*other* services keep their implied price, and recomputing a total from the
lines follows the live prices (see the counterexample). -/
theorem price_snapshot_amended (db : DB) (sid : Nat) (p : Int) :
    (setServicePrice db sid p).orders = db.orders ∧
    (setServicePrice db sid p).orderItems = db.orderItems ∧
    (∀ oid, storedTotal (setServicePrice db sid p) oid = storedTotal db oid) ∧
    (∀ oi : OrderItem, oi.service ≠ sid →
      orderLineImpliedPrice (setServicePrice db sid p) oi
        = orderLineImpliedPrice db oi) := by
  refine ⟨rfl, rfl, fun oid => rfl, ?_⟩
  intro oi hoi
  show (((db.services.map (fun s => if s.id == sid then { s with price := p } else s)).find?
      (fun s => s.id == oi.service)).map (fun s => s.price)).getD 0
    = ((db.services.find? (fun s => s.id == oi.service)).map (fun s => s.price)).getD 0
  rw [List.find?_map]
  have hcomp : ((fun (s : Service) => s.id == oi.service) ∘
      (fun (s : Service) => if s.id == sid then { s with price := p } else s))
        = (fun (s : Service) => s.id == oi.service) := by
    funext x
    by_cases hx : (x.id == sid) = true
    · have hxe : x.id = sid := eq_of_beq hx
      simp [hxe]
    · have hxe : x.id ≠ sid := by simpa using hx
      simp [hxe]
  rw [hcomp]
  cases hfind : db.services.find? (fun s => s.id == oi.service) with
  | none => rfl
  | some sv =>
    have hpred := List.find?_some hfind
    have hsv : sv.id = oi.service := eq_of_beq hpred
    have hne : sv.id ≠ sid := by
      rw [hsv]; exact hoi
    simp [hne]

/-- Witness for the amended C3 at a concrete store: repricing service 1
leaves the orders table, the order-items table and the stored total of
order 1 untouched, and the implied price of a line of service 2 unchanged. -/
theorem price_snapshot_amended_witness :
    (setServicePrice
      { services := [{ id := 1, price := 1000 }, { id := 2, price := 550 }],
        carts := [], cartItems := [],
        orders := [{ id := 1, client := 7, total_price := 2550, status := .PENDING }],
        orderItems := [{ id := 1, order := 1, service := 1, quantity := 2 },
                       { id := 2, order := 1, service := 2, quantity := 1 }],
        nextCartId := 2, nextCartItemId := 3, nextOrderId := 2, nextOrderItemId := 3 }
      1 9999).orders
      = [{ id := 1, client := 7, total_price := 2550, status := .PENDING }] ∧
    orderLineImpliedPrice
      (setServicePrice
        { services := [{ id := 1, price := 1000 }, { id := 2, price := 550 }],
          carts := [], cartItems := [],
          orders := [{ id := 1, client := 7, total_price := 2550, status := .PENDING }],
          orderItems := [{ id := 1, order := 1, service := 1, quantity := 2 },
                         { id := 2, order := 1, service := 2, quantity := 1 }],
          nextCartId := 2, nextCartItemId := 3, nextOrderId := 2, nextOrderItemId := 3 }
        1 9999)
      { id := 2, order := 1, service := 2, quantity := 1 }
      = orderLineImpliedPrice
        { services := [{ id := 1, price := 1000 }, { id := 2, price := 550 }],
          carts := [], cartItems := [],
          orders := [{ id := 1, client := 7, total_price := 2550, status := .PENDING }],
          orderItems := [{ id := 1, order := 1, service := 1, quantity := 2 },
                         { id := 2, order := 1, service := 2, quantity := 1 }],
          nextCartId := 2, nextCartItemId := 3, nextOrderId := 2, nextOrderItemId := 3 }
        { id := 2, order := 1, service := 2, quantity := 1 } := by
  have h := price_snapshot_amended
    { services := [{ id := 1, price := 1000 }, { id := 2, price := 550 }],
      carts := [], cartItems := [],
      orders := [{ id := 1, client := 7, total_price := 2550, status := .PENDING }],
      orderItems := [{ id := 1, order := 1, service := 1, quantity := 2 },
                     { id := 2, order := 1, service := 2, quantity := 1 }],
      nextCartId := 2, nextCartItemId := 3, nextOrderId := 2, nextOrderItemId := 3 }
    1 9999
  exact ⟨h.1, h.2.2.2 { id := 2, order := 1, service := 2, quantity := 1 } (by decide)⟩

/-- C1: the checkout sequence is **not** atomic.  For the two-line cart
below, if the run dies after the first two autocommitted writes (the Order
insert and the first OrderItem insert — e.g. the second OrderItem insert
fails), the observable store holds an Order (with the default total 0) that
has only one of its two lines, while the cart still exists with both lines:
a partial Order is observable, which the claimed all-or-nothing semantics
forbids.  `OrderSerializer.create` has no `transaction.atomic` (or any
other transaction management), so each ORM write commits on its own. -/
theorem checkout_partial_commit :
    (checkoutAfterWrites
      { services := [{ id := 1, price := 1000 }, { id := 2, price := 550 }],
        carts := [{ id := 1, user := 7 }],
        cartItems := [{ id := 1, cart := 1, service := 1, quantity := 2 },
                      { id := 2, cart := 1, service := 2, quantity := 1 }],
        orders := [], orderItems := [],
        nextCartId := 2, nextCartItemId := 3, nextOrderId := 1, nextOrderItemId := 1 }
      { id := 7, isAuthenticated := true, groups := ["Client"] } none 2).orders
      = [{ id := 1, client := 7, total_price := 0, status := .PENDING }] ∧
    (checkoutAfterWrites
      { services := [{ id := 1, price := 1000 }, { id := 2, price := 550 }],
        carts := [{ id := 1, user := 7 }],
        cartItems := [{ id := 1, cart := 1, service := 1, quantity := 2 },
                      { id := 2, cart := 1, service := 2, quantity := 1 }],
        orders := [], orderItems := [],
        nextCartId := 2, nextCartItemId := 3, nextOrderId := 1, nextOrderItemId := 1 }
      { id := 7, isAuthenticated := true, groups := ["Client"] } none 2).orderItems
      = [{ id := 1, order := 1, service := 1, quantity := 2 }] ∧
    (checkoutAfterWrites
      { services := [{ id := 1, price := 1000 }, { id := 2, price := 550 }],
        carts := [{ id := 1, user := 7 }],
        cartItems := [{ id := 1, cart := 1, service := 1, quantity := 2 },
                      { id := 2, cart := 1, service := 2, quantity := 1 }],
        orders := [], orderItems := [],
        nextCartId := 2, nextCartItemId := 3, nextOrderId := 1, nextOrderItemId := 1 }
      { id := 7, isAuthenticated := true, groups := ["Client"] } none 2).carts
      = [{ id := 1, user := 7 }] ∧
    (checkoutAfterWrites
      { services := [{ id := 1, price := 1000 }, { id := 2, price := 550 }],
        carts := [{ id := 1, user := 7 }],
        cartItems := [{ id := 1, cart := 1, service := 1, quantity := 2 },
                      { id := 2, cart := 1, service := 2, quantity := 1 }],
        orders := [], orderItems := [],
        nextCartId := 2, nextCartItemId := 3, nextOrderId := 1, nextOrderItemId := 1 }
      { id := 7, isAuthenticated := true, groups := ["Client"] } none 2).cartItems
      = [{ id := 1, cart := 1, service := 1, quantity := 2 },
         { id := 2, cart := 1, service := 2, quantity := 1 }] := by
  decide

/-- C9: the payment callback does **not** parse the transaction id
defensively — a missing `tran_id` crashes with `AttributeError`
(`None.split`), an id without an underscore crashes with `IndexError`, a
non-numeric order part crashes with `ValueError`, and an id that resolves to
no order crashes with `Order.DoesNotExist`; none of these produce an error
response.  (The store is at least left unchanged in every crash.) -/
theorem payment_callback_crashes :
    payment_success
      { services := [], carts := [], cartItems := [],
        orders := [{ id := 5, client := 7, total_price := 2000, status := .PENDING }],
        orderItems := [],
        nextCartId := 1, nextCartItemId := 1, nextOrderId := 6, nextOrderItemId := 1 }
      (some "garbage".data)
      = .exn "IndexError"
        { services := [], carts := [], cartItems := [],
          orders := [{ id := 5, client := 7, total_price := 2000, status := .PENDING }],
          orderItems := [],
          nextCartId := 1, nextCartItemId := 1, nextOrderId := 6, nextOrderItemId := 1 } ∧
    payment_success
      { services := [], carts := [], cartItems := [],
        orders := [{ id := 5, client := 7, total_price := 2000, status := .PENDING }],
        orderItems := [],
        nextCartId := 1, nextCartItemId := 1, nextOrderId := 6, nextOrderItemId := 1 }
      none
      = .exn "AttributeError"
        { services := [], carts := [], cartItems := [],
          orders := [{ id := 5, client := 7, total_price := 2000, status := .PENDING }],
          orderItems := [],
          nextCartId := 1, nextCartItemId := 1, nextOrderId := 6, nextOrderItemId := 1 } ∧
    payment_success
      { services := [], carts := [], cartItems := [],
        orders := [{ id := 5, client := 7, total_price := 2000, status := .PENDING }],
        orderItems := [],
        nextCartId := 1, nextCartItemId := 1, nextOrderId := 6, nextOrderItemId := 1 }
      (some "txn_99_ab".data)
      = .exn "DoesNotExist"
        { services := [], carts := [], cartItems := [],
          orders := [{ id := 5, client := 7, total_price := 2000, status := .PENDING }],
          orderItems := [],
          nextCartId := 1, nextCartItemId := 1, nextOrderId := 6, nextOrderItemId := 1 } ∧
    payment_success
      { services := [], carts := [], cartItems := [],
        orders := [{ id := 5, client := 7, total_price := 2000, status := .PENDING }],
        orderItems := [],
        nextCartId := 1, nextCartItemId := 1, nextOrderId := 6, nextOrderItemId := 1 }
      (some "txn_x_ab".data)
      = .exn "ValueError"
        { services := [], carts := [], cartItems := [],
          orders := [{ id := 5, client := 7, total_price := 2000, status := .PENDING }],
          orderItems := [],
          nextCartId := 1, nextCartItemId := 1, nextOrderId := 6, nextOrderItemId := 1 } := by
  decide

/-- C10 counterexample: a successful payment callback whose transaction id
resolves to an order in state `COMPLETED` still rewrites that order's status
to `ACCEPTED` — the callback is not restricted to the `PENDING → ACCEPTED`
transition. -/
theorem payment_nonpending_counterexample :
    payment_success
      { services := [], carts := [], cartItems := [],
        orders := [{ id := 5, client := 7, total_price := 2000, status := .COMPLETED }],
        orderItems := [],
        nextCartId := 1, nextCartItemId := 1, nextOrderId := 6, nextOrderItemId := 1 }
      (some "txn_5_ab12cd".data)
      = .redirect
        { services := [], carts := [], cartItems := [],
          orders := [{ id := 5, client := 7, total_price := 2000, status := .ACCEPTED }],
          orderItems := [],
          nextCartId := 1, nextCartItemId := 1, nextOrderId := 6, nextOrderItemId := 1 } := by
  decide

/-- C10 (amended): whenever the transaction id parses and resolves to an
existing order, `payment_success` sets that order's status to `ACCEPTED`
unconditionally — the current status (which is unconstrained here) is never
consulted, so there is no `PENDING`-only restriction. -/
theorem payment_sets_accepted_unconditionally (db : DB) (tid idStr : List Char)
    (oid : Nat) (o : Order)
    (hsplit : (splitSep '_' tid).get? 1 = some idStr)
    (hparse : parseDigits idStr = some oid)
    (hfind : db.orders.find? (fun x => x.id == oid) = some o) :
    payment_success db (some tid)
      = .redirect
        { db with
            orders := db.orders.map
              (fun x => if x.id == oid then { x with status := .ACCEPTED } else x) } := by
  simp only [payment_success, hsplit, hparse, hfind]

/-- Witness for the amended C10: an order in state `IN_PROGRESS` is moved to
`ACCEPTED` by a resolving callback. -/
theorem payment_sets_accepted_unconditionally_witness :
    payment_success
      { services := [], carts := [], cartItems := [],
        orders := [{ id := 5, client := 9, total_price := 550, status := .IN_PROGRESS }],
        orderItems := [],
        nextCartId := 1, nextCartItemId := 1, nextOrderId := 6, nextOrderItemId := 1 }
      (some "txn_5_z".data)
      = .redirect
        { services := [], carts := [], cartItems := [],
          orders := [{ id := 5, client := 9, total_price := 550, status := .ACCEPTED }],
          orderItems := [],
          nextCartId := 1, nextCartItemId := 1, nextOrderId := 6, nextOrderItemId := 1 } := by
  exact payment_sets_accepted_unconditionally
    { services := [], carts := [], cartItems := [],
      orders := [{ id := 5, client := 9, total_price := 550, status := .IN_PROGRESS }],
      orderItems := [],
      nextCartId := 1, nextCartItemId := 1, nextOrderId := 6, nextOrderItemId := 1 }
    "txn_5_z".data "5".data 5
    { id := 5, client := 9, total_price := 550, status := .IN_PROGRESS }
    (by decide) (by decide) (by decide)

end ServiceEase
